import Mathlib

/-!
Verification development for the buttplug device-abstraction and
command-translation core (Lovense protocol handler, Lovense dongle relay
device handle, evdev protocol handler, evdev communication manager and
hardware handle).

Shallow embedding conventions:
* Byte strings passed through `format!(...).as_bytes()` / `into_bytes()` /
  `from_utf8` round-trips are modelled as Lean `String`s (UTF-8 encoding is
  injective, and the code only ever converts back and forth).
* Raw binary payloads (the evdev force-feedback path) are modelled as
  `List Nat` with each element a byte value.
* A Rust function that can panic (`unwrap`, `expect`, `unimplemented!`,
  out-of-bounds indexing) is modelled as returning `Option α`, with `none`
  standing for the panic.
* Machine integers are `Nat` with explicit `% 2 ^ w` where truncation
  happens (the `as i16` cast in the evdev protocol handler).
-/

/-- Logical endpoint names, from `Endpoint` in the device module. Only the
endpoints used by the embedded code are included. -/
inductive Endpoint
  | Rx
  | Tx
deriving DecidableEq, Repr

/-- `DeviceWriteCmd` from the device module: an endpoint, payload bytes
(modelled as the `String` the Lovense code formats and converts with
`as_bytes`), and the write-with-response flag. -/
structure DeviceWriteCmd where
  endpoint : Endpoint
  data : String
  writeWithResponse : Bool
deriving DecidableEq, Repr

/-- Modelled from the spec: the error taxonomy of section 7 (`NotConnected`,
`ProtocolSpecificError`, `InvalidCommand`, `DeviceConnectionError`,
`NotSupported`); the error enum's own source file is outside the provided
sources, but every variant below is constructed by the provided code or
named by the spec. Constructor names follow the Rust enum where the
provided code names them (`DeviceNotConnected`, `ProtocolSpecificError`,
`DeviceConnectionError`). -/
inductive ButtplugDeviceError
  | DeviceNotConnected (msg : String)
  | ProtocolSpecificError (proto msg : String)
  | InvalidCommand (msg : String)
  | DeviceConnectionError (msg : String)
  | NotSupported (msg : String)
deriving DecidableEq, Repr

/-! ## Lovense protocol handler: `handle_vibrate_cmd`
(src/buttplug/src/device/protocol/lovense.rs)

The handler receives `result = manager.update_vibration(&msg, false)?`, an
`Option<Vec<Option<u32>>>` dedup delta. The claims quantify over that delta
directly, so the embedding takes it as the input. -/

/-- `cmds.windows(2).all(|w| w[0] == w[1])`: every adjacent pair of the
vector is equal (vacuously true on lists of length below two). -/
def allWindowsEq : List (Option Nat) → Bool
  | [] => true
  | [_] => true
  | a :: b :: rest => (a == b) && allWindowsEq (b :: rest)

/-- The per-motor loop of `handle_vibrate_cmd`: for each index `i` whose
entry is `Some speed`, the wire command `Vibrate{i+1}:{speed};`. -/
def perMotorCmds (cmds : List (Option Nat)) : List String :=
  cmds.enum.filterMap fun p =>
    match p.2 with
    | some speed => some ("Vibrate" ++ toString (p.1 + 1) ++ ":" ++ toString speed ++ ";")
    | none => none

/-- `Lovense::handle_vibrate_cmd`, restricted to the wire commands it writes
(in issue order) given the dedup delta `result`. `none` models the panic on
`cmds[0]` when the delta vector is empty (the generic command manager never
produces an empty vector, but the indexing itself is partial). -/
def handle_vibrate_cmd (result : Option (List (Option Nat))) : Option (List String) :=
  match result with
  | none => some []
  | some [] => none
  | some (c0 :: rest) =>
    let cmds := c0 :: rest
    if c0.isSome && (cmds.length == 1 || allWindowsEq cmds) then
      some ["Vibrate:" ++ toString (c0.getD 0) ++ ";"]
    else
      some (perMotorCmds cmds)

/-- The claim's reading of the tie-break, stated from the spec's words for
the refinement comparison: "all equal" evaluated only across `Some` entries,
absent entries excluded from the comparison and from emission. -/
def specAllPresentEqual (cmds : List (Option Nat)) : Bool :=
  match cmds.filterMap id with
  | [] => false
  | v :: rest => rest.all (· == v)

/-- The spec's claimed encoding, for the refinement comparison with
`handle_vibrate_cmd`. -/
def spec_vibrate_encoding (cmds : List (Option Nat)) : List String :=
  if specAllPresentEqual cmds then
    ["Vibrate:" ++ toString ((cmds.filterMap id).headD 0) ++ ";"]
  else
    perMotorCmds cmds

/-! ## Lovense protocol handler: `handle_rotate_cmd`
(src/buttplug/src/device/protocol/lovense.rs)

`result = manager.update_rotation(&msg)?` yields a per-actuator vector of
`Option<(speed, clockwise)>`; the handler only looks at `result[0]` and at
its own `rotation_direction : AtomicBool` (initialised `false`). The
generic command manager's source file is outside the provided sources, so
its rotation dedup is modelled from the spec. -/

/-- Modelled from the spec: the Generic Command Manager's `update_rotation`
dedup for one actuator (the manager's source file is outside the provided
sources). It compares the requested `(speed, clockwise)` tuple against the
stored last-sent tuple, reports `some` exactly when the tuple differs (so a
direction-only change is still reported even with unchanged speed), and
updates the stored tuple before returning. -/
def update_rotation (stored : Option (Nat × Bool)) (req : Nat × Bool) :
    Option (Nat × Bool) × Option (Nat × Bool) :=
  if stored = some req then (none, stored) else (some req, some req)

/-- The rotation state visible to `handle_rotate_cmd`: the manager's stored
last-sent tuple for actuator 0 (spec-modelled) and the protocol's
`rotation_direction` atomic flag (initially `false`). -/
structure LovenseRotState where
  stored : Option (Nat × Bool)
  rotationDirection : Bool
deriving DecidableEq, Repr

/-- `Lovense::handle_rotate_cmd`, restricted to the wire commands it writes
in issue order, together with the updated state: if the dedup delta for
actuator 0 is `Some (speed, clockwise)`, write `Rotate:{speed};`, then, if
the stored direction flag differs from `clockwise`, store `clockwise` and
additionally write `RotateChange;`. -/
def handle_rotate_cmd (st : LovenseRotState) (req : Nat × Bool) :
    List String × LovenseRotState :=
  let res := update_rotation st.stored req
  match res.1 with
  | none => ([], { st with stored := res.2 })
  | some (speed, clockwise) =>
    let speedCmd := "Rotate:" ++ toString speed ++ ";"
    if st.rotationDirection != clockwise then
      ([speedCmd, "RotateChange;"],
        { stored := res.2, rotationDirection := clockwise })
    else
      ([speedCmd], { stored := res.2, rotationDirection := st.rotationDirection })

/-! ## Lovense dongle relay device handle
(src/buttplug/src/server/comm_managers/lovense_dongle/lovense_dongle_device_impl.rs) -/

/-- Modelled from the spec: the relay message function tags (the message
definitions file is outside the provided sources). The spec and the
provided code name `ToyData` for toy payload messages and `Command` for
outgoing commands; all other tags are relay control/status, represented
here by `StatusTag` and `SearchTag`. -/
inductive LovenseDongleMessageFunc
  | Command
  | ToyData
  | StatusTag
  | SearchTag
deriving DecidableEq, Repr

/-- Modelled from the spec: the outgoing message-type tag; the provided
code only ever constructs `Toy`. -/
inductive LovenseDongleMessageType
  | Toy
deriving DecidableEq, Repr

/-- The `{id, data}` payload record of an incoming relay message; both
fields are optional in the wire format. -/
structure LovenseDongleIncomingMessageData where
  id : Option String
  data : Option String
deriving DecidableEq, Repr

/-- An incoming relay message: a function tag and an optional payload
record. -/
structure LovenseDongleIncomingMessage where
  func : LovenseDongleMessageFunc
  data : Option LovenseDongleIncomingMessageData
deriving DecidableEq, Repr

/-- `LovenseDongleOutgoingMessage` as built by
`LovenseDongleDeviceImpl::write_value`. -/
structure LovenseDongleOutgoingMessage where
  func : LovenseDongleMessageFunc
  messageType : LovenseDongleMessageType
  id : Option String
  command : Option String
  eager : Option Nat
deriving DecidableEq, Repr

/-- Device events emitted to the device manager; payload bytes are modelled
as the `String` whose `into_bytes` the code sends. -/
inductive ButtplugDeviceEvent
  | Notification (address : String) (endpoint : Endpoint) (data : String)
  | Removed (address : String)
deriving DecidableEq, Repr

/-- One iteration of the listener loop spawned in
`LovenseDongleDeviceImpl::new`: a message whose `func` is not `ToyData` is
skipped (`continue`); a `ToyData` message has its payload unwrapped twice
(`msg.data.unwrap().data.unwrap()`, `none` models the panic when either
layer is absent) and forwarded as a `Notification` on `Rx` for this
device's address. The event channel is modelled as always accepting (the
`send(...).unwrap()` failure is a shutdown race outside the claims). -/
def processDongleMessage (address : String) (msg : LovenseDongleIncomingMessage) :
    Option (List ButtplugDeviceEvent) :=
  if msg.func != LovenseDongleMessageFunc.ToyData then
    some []
  else
    match msg.data with
    | none => none
    | some d =>
      match d.data with
      | none => none
      | some s => some [ButtplugDeviceEvent.Notification address Endpoint.Rx s]

/-- The whole listener task over the finite stream of incoming messages
(the list ends where `device_incoming.recv()` returns `None`, i.e. where
the stream closes): process each message in order, then emit
`Removed(address)` once the loop exits. `none` models a panic inside the
loop, which kills the task before `Removed` is sent. -/
def runDongleListener (address : String) :
    List LovenseDongleIncomingMessage → Option (List ButtplugDeviceEvent)
  | [] => some [ButtplugDeviceEvent.Removed address]
  | msg :: rest =>
    match processDongleMessage address msg with
    | none => none
    | some evs => (runDongleListener address rest).map (evs ++ ·)

/-- A message the listener can process without panicking: either its
function tag is not `ToyData`, or both payload layers are present. -/
def toyDataWellFormed (msg : LovenseDongleIncomingMessage) : Bool :=
  msg.func != LovenseDongleMessageFunc.ToyData ||
    (match msg.data with
     | some d => d.data.isSome
     | none => false)

/-- The mutable state of a `LovenseDongleDeviceImpl` handle relevant to
`write_value` and `disconnect`: the `connected` atomic flag and whether the
shared outgoing relay channel still has a live receiver. -/
structure LovenseDongleHandleState where
  connected : Bool
  channelOpen : Bool
deriving DecidableEq, Repr

/-- `LovenseDongleDeviceImpl::disconnect`: stores `false` into the
`connected` flag and resolves `Ok`; nothing else changes. -/
def lovenseDongleDisconnect (st : LovenseDongleHandleState) : LovenseDongleHandleState :=
  { st with connected := false }

/-- `LovenseDongleDeviceImpl::write_value`: wraps the payload in an
outgoing relay message `{func = Command, message_type = Toy, id = address,
command = payload}` and sends it on the shared outgoing channel; a failed
send (closed channel) is mapped to `DeviceNotConnected("Port closed during
writing")`. The `connected` flag of the state is visible to the function
but never consulted by the source. Returns the result together with the
message delivered to the channel, if any. -/
def lovenseDongleWriteValue (st : LovenseDongleHandleState) (address : String)
    (msg : DeviceWriteCmd) :
    Except ButtplugDeviceError Unit × Option LovenseDongleOutgoingMessage :=
  let outgoing : LovenseDongleOutgoingMessage :=
    { func := LovenseDongleMessageFunc.Command
      messageType := LovenseDongleMessageType.Toy
      id := some address
      command := some msg.data
      eager := none }
  if st.channelOpen then
    (Except.ok (), some outgoing)
  else
    (Except.error (ButtplugDeviceError.DeviceNotConnected "Port closed during writing"), none)

/-- A one-shot read request (endpoint only; the provided implementations
never inspect it). -/
structure DeviceReadCmd where
  endpoint : Endpoint
deriving DecidableEq, Repr

/-- A raw reading, as `read_value` would have to produce one. -/
structure RawReading where
  endpoint : Endpoint
  data : List Nat
deriving DecidableEq, Repr

/-- `LovenseDongleDeviceImpl::read_value` is `unimplemented!()`: it panics
unconditionally, modelled as `none`; `some` would carry the returned
result. -/
def lovenseDongleReadValue (_msg : DeviceReadCmd) :
    Option (Except ButtplugDeviceError RawReading) :=
  none

/-! ## Evdev protocol handler
(src/buttplug/src/server/device/protocol/evdev.rs) -/

/-- Actuator type tags from the scalar command; the evdev handler never
inspects the tag, so only the ones relevant to force feedback appear. -/
inductive ActuatorType
  | Vibrate
  | Oscillate
deriving DecidableEq, Repr

/-- `HardwareWriteCmd`: endpoint, raw payload bytes, write-with-response
flag. -/
structure HardwareWriteCmd where
  endpoint : Endpoint
  data : List Nat
  writeWithResponse : Bool
deriving DecidableEq, Repr

/-- `cmd.write_i16::<LittleEndian>(v as i16)` on a fresh `Vec<u8>`: the
`u32` value is truncated to its low 16 bits by the `as i16` cast and
written as two little-endian bytes. Writing into an in-memory `Vec` cannot
fail, so the `io::Result` is always `Ok`; the `Except` layer keeps the
source's fallible signature. -/
def vecWriteI16LE (v : Nat) : Except Unit (List Nat) :=
  Except.ok [v % 2 ^ 16 % 2 ^ 8, v % 2 ^ 16 / 2 ^ 8]

/-- `Evdev::handle_scalar_cmd`: reads `cmds[0]` (panic if the slice is
empty, modelled `none`), `.expect(":3")` (panic if the first entry is
`None`, modelled `none`), writes the value's low 16 bits little-endian into
a fresh buffer, mapping a write error to `ProtocolSpecificError`, and
returns a single `HardwareWriteCmd` on `Tx` with that buffer. -/
def handle_scalar_cmd (cmds : List (Option (ActuatorType × Nat))) :
    Option (Except ButtplugDeviceError (List HardwareWriteCmd)) :=
  match cmds with
  | [] => none
  | none :: _ => none
  | some (_, v) :: _ =>
    match vecWriteI16LE v with
    | Except.error _ =>
      some (Except.error (ButtplugDeviceError.ProtocolSpecificError "Evdev"
        "Cannot convert Evdev value for processing"))
    | Except.ok bytes =>
      some (Except.ok [{ endpoint := Endpoint.Tx, data := bytes, writeWithResponse := false }])

/-- The spec-side fixed-width encoding for the refinement comparison: the
2-byte little-endian encoding of a value already reduced modulo `2 ^ 16`. -/
def leBytes2 (w : Nat) : List Nat :=
  [w % 2 ^ 8, w / 2 ^ 8 % 2 ^ 8]

/-! ## Evdev hardware handle
(src/buttplug/src/server/device/hardware/communication/evdev/evdev_hardware.rs) -/

/-- A hardware read request (endpoint only; the provided implementation
never inspects it). -/
structure HardwareReadCmd where
  endpoint : Endpoint
deriving DecidableEq, Repr

/-- `EvdevDeviceImpl::read_value` is `unimplemented!()`: it panics
unconditionally, modelled as `none`; `some` would carry the returned
result. -/
def evdevReadValue (_msg : HardwareReadCmd) :
    Option (Except ButtplugDeviceError RawReading) :=
  none

/-! ## Evdev communication manager scan
(src/buttplug/src/server/device/hardware/communication/evdev/evdev_comm_manager.rs) -/

/-- What `evdev::Device::open` yields for a candidate: the optional device
name (`device.name()`), the product id used as the address, and whether
`supported_ff()` is `Some`. -/
structure CandidateDevice where
  name : Option String
  productId : Nat
  supportedFF : Bool
deriving DecidableEq, Repr

/-- One entry of the `/dev/input` directory iterator: either an unreadable
entry (`file.is_err()`), or a readable one carrying its file name and the
result of `evdev::Device::open` on its path (`none` when opening fails).
File names are Lean `String`s, so the `to_str().expect(":<")` panic on a
non-UTF-8 name is not representable and not modelled. -/
inductive DirEntryResult
  | err
  | entry (fileName : String) (openResult : Option CandidateDevice)
deriving DecidableEq, Repr

/-- A `DeviceFound` event as sent by the scan (the connector it carries is
opaque and omitted): `name = device.name().unwrap_or("Unnamed device")`,
`address = device.input_id().product().to_string()`. -/
structure DeviceFoundEvent where
  name : String
  address : String
deriving DecidableEq, Repr

/-- Character-list core of `str::starts_with`: does the first list start
with the second? -/
def charsStartWith : List Char → List Char → Bool
  | _, [] => true
  | [], _ :: _ => false
  | s :: ss, p :: ps => (s == p) && charsStartWith ss ps

/-- `str::starts_with` on the embedding's strings. -/
def strStartsWith (s p : String) : Bool :=
  charsStartWith s.data p.data

/-- The per-candidate body of the scan loop: unreadable entries are
skipped, names not starting with `"event"` are skipped, failed opens are
skipped, devices without force-feedback support are skipped; otherwise a
`DeviceFound` event is produced. -/
def scanCandidate : DirEntryResult → Option DeviceFoundEvent
  | DirEntryResult.err => none
  | DirEntryResult.entry fileName openResult =>
    if !strStartsWith fileName "event" then none
    else
      match openResult with
      | none => none
      | some dev =>
        if !dev.supportedFF then none
        else some { name := dev.name.getD "Unnamed device", address := toString dev.productId }

/-- `EvdevCommunicationManager::scan`, over the outcome of
`fs::read_dir("/dev/input/")`: the directory handle is unwrapped with
`.expect("owo?")`, so a failed `read_dir` panics the scan task (modelled
`none`); otherwise every candidate is processed in order and the scan
resolves `Ok(())` (the event-channel send failure path also returns
`Ok(())`, so the function never returns an error). The result carries the
`DeviceFound` events sent upstream. -/
def evdevScan (readDir : Except Unit (List DirEntryResult)) :
    Option (List DeviceFoundEvent × Except ButtplugDeviceError Unit) :=
  match readDir with
  | Except.error _ => none
  | Except.ok entries => some (entries.filterMap scanCandidate, Except.ok ())

/-! ## Helper lemmas -/

/-- A list all of whose elements are one constant has all adjacent pairs
equal. -/
lemma allWindowsEq_of_const (a : Option Nat) :
    ∀ l : List (Option Nat), (∀ x ∈ l, x = a) → allWindowsEq l = true
  | [], _ => rfl
  | [_], _ => rfl
  | x :: y :: rest, h => by
    have hx : x = a := h x (by simp)
    have hy : y = a := h y (by simp)
    have hrest : allWindowsEq (y :: rest) = true :=
      allWindowsEq_of_const a (y :: rest) fun z hz => h z (List.mem_cons_of_mem x hz)
    subst hx
    subst hy
    simp [allWindowsEq, hrest]

/-- If all adjacent pairs of a nonempty list are equal, every element
equals the head. -/
lemma allWindowsEq_eq_head :
    ∀ (c0 : Option Nat) (l : List (Option Nat)), allWindowsEq (c0 :: l) = true →
      ∀ x ∈ c0 :: l, x = c0
  | _, [], _, x, hx => by simpa using hx
  | c0, y :: rest, h, x, hx => by
    have h1 : (c0 == y) = true ∧ allWindowsEq (y :: rest) = true := by
      simpa [allWindowsEq, Bool.and_eq_true] using h
    have hcy : c0 = y := by simpa using h1.1
    rcases List.mem_cons.mp hx with h2 | h2
    · simp [h2]
    · have hxy := allWindowsEq_eq_head y rest h1.2 x h2
      rw [hxy, hcy]

/-- A well-formed message is processed without panic, and every event it
produces is a notification for this device's address on `Rx`. -/
lemma processDongleMessage_wellFormed (addr : String) :
    ∀ msg : LovenseDongleIncomingMessage, toyDataWellFormed msg = true →
      ∃ evs, processDongleMessage addr msg = some evs ∧
        ∀ e ∈ evs, ∃ s, e = ButtplugDeviceEvent.Notification addr Endpoint.Rx s := by
  rintro ⟨func, data⟩ h
  cases func
  case ToyData =>
    rcases data with _ | d
    · simp [toyDataWellFormed] at h
    · rcases hd : d.data with _ | s
      · simp [toyDataWellFormed, hd] at h
      · exact ⟨[ButtplugDeviceEvent.Notification addr Endpoint.Rx s],
          by simp [processDongleMessage, hd], by simp⟩
  all_goals exact ⟨[], rfl, by simp⟩

/-- The listener over a well-formed message stream produces a prefix of
notifications for this address followed by the single `Removed` event. -/
lemma runDongleListener_shape (addr : String) :
    ∀ msgs : List LovenseDongleIncomingMessage,
      (∀ m ∈ msgs, toyDataWellFormed m = true) →
      ∃ pre : List ButtplugDeviceEvent,
        runDongleListener addr msgs = some (pre ++ [ButtplugDeviceEvent.Removed addr]) ∧
        ∀ e ∈ pre, ∃ s, e = ButtplugDeviceEvent.Notification addr Endpoint.Rx s
  | [], _ => ⟨[], rfl, by simp⟩
  | msg :: rest, h => by
    obtain ⟨evs, hproc, hevs⟩ :=
      processDongleMessage_wellFormed addr msg (h msg (by simp))
    obtain ⟨pre, hrun, hpre⟩ :=
      runDongleListener_shape addr rest fun m hm => h m (List.mem_cons_of_mem _ hm)
    refine ⟨evs ++ pre, ?_, ?_⟩
    · simp [runDongleListener, hproc, hrun]
    · intro e he
      rcases List.mem_append.mp he with h1 | h1
      · exact hevs e h1
      · exact hpre e h1

/-! ## Claim theorems -/

/-- C1 counterexample. The claim states that the "all equal" tie-break of
`Lovense::handle_vibrate_cmd` is evaluated only across present (`Some`)
entries, so the delta `[Some 5, None, Some 5]` would encode exactly one
set-all command `Vibrate:5;` (as `spec_vibrate_encoding` does). The code
compares every adjacent pair of the raw vector, `None` entries included, so
this delta takes the per-motor path and emits two commands instead. -/
theorem lovense_vibrate_tiebreak_counterexample :
    handle_vibrate_cmd (some [some 5, none, some 5]) =
      some ["Vibrate1:5;", "Vibrate3:5;"] ∧
    spec_vibrate_encoding [some 5, none, some 5] = ["Vibrate:5;"] ∧
    handle_vibrate_cmd (some [some 5, none, some 5]) ≠
      some (spec_vibrate_encoding [some 5, none, some 5]) := by
  refine ⟨by decide, by decide, by decide⟩

/-- C1 amended. For every nonempty deduplicated vibrate delta handed to
`Lovense::handle_vibrate_cmd`: if every entry of the delta (absent entries
included) is `some v` for one identical value `v`, exactly one set-all
command `Vibrate:v;` is emitted; otherwise — in particular whenever the
first entry is absent or any entry differs from the first, so whenever any
entry is absent — one per-motor command `Vibrate{k}:{n};` is emitted for
each present entry, absent entries excluded from emission. The "all equal"
comparison is over the raw delta including absent entries, not only over
present ones. -/
theorem lovense_vibrate_encoding_amended (cmds : List (Option Nat)) (v : Nat)
    (hne : cmds ≠ []) :
    ((∀ x ∈ cmds, x = some v) →
      handle_vibrate_cmd (some cmds) = some ["Vibrate:" ++ toString v ++ ";"]) ∧
    ((cmds.headD none = none ∨ ¬ (∀ x ∈ cmds, x = cmds.headD none)) →
      handle_vibrate_cmd (some cmds) = some (perMotorCmds cmds)) := by
  match cmds, hne with
  | c0 :: rest, _ =>
    constructor
    · intro hall
      have hc0 : c0 = some v := hall c0 (by simp)
      subst hc0
      have hwin : allWindowsEq (some v :: rest) = true :=
        allWindowsEq_of_const (some v) _ hall
      simp [handle_vibrate_cmd, hwin]
    · intro hbad
      rcases hbad with hnone | hneq
      · have hc0 : c0 = none := by simpa using hnone
        simp [handle_vibrate_cmd, hc0]
      · have hhead : (c0 :: rest).headD none = c0 := rfl
        rw [hhead] at hneq
        match rest with
        | [] =>
          exact absurd (fun x hx => by simpa using hx) hneq
        | r :: rs =>
          have hnwin : allWindowsEq (c0 :: r :: rs) = false := by
            rcases hb : allWindowsEq (c0 :: r :: rs) with _ | _
            · rfl
            · exact absurd (allWindowsEq_eq_head c0 (r :: rs) hb) hneq
          simp [handle_vibrate_cmd, hnwin]

/-- C2 counterexample. The claim states that after `disconnect()` every
subsequent write on a relay-toy handle fails with `NotConnected`. But
`LovenseDongleDeviceImpl::write_value` never consults the `connected` flag:
with the flag already stored `false` by `disconnect` and the shared
outgoing channel still open, the write resolves `Ok` and the command is
delivered to the relay. -/
theorem dongle_write_after_disconnect_counterexample :
    (lovenseDongleDisconnect ⟨true, true⟩).connected = false ∧
    (lovenseDongleWriteValue (lovenseDongleDisconnect ⟨true, true⟩) "dongle-toy-0"
        ⟨Endpoint.Tx, "Vibrate:5;", false⟩).1 = Except.ok () := by
  exact ⟨rfl, rfl⟩

/-- C2 amended. For every relay-toy hardware handle, write fails with
`NotConnected` ("Port closed during writing") exactly when the shared
outgoing relay channel is closed; the connection flag is never consulted,
so the result is invariant under flipping it, and `disconnect()` — which
only clears the flag — does not by itself make subsequent writes fail. -/
theorem dongle_write_channel_closed_amended (st : LovenseDongleHandleState)
    (addr : String) (msg : DeviceWriteCmd) :
    ((lovenseDongleWriteValue st addr msg).1 =
        Except.error (ButtplugDeviceError.DeviceNotConnected "Port closed during writing") ↔
      st.channelOpen = false) ∧
    lovenseDongleWriteValue st addr msg =
      lovenseDongleWriteValue { st with connected := !st.connected } addr msg ∧
    (lovenseDongleDisconnect st).channelOpen = st.channelOpen := by
  rcases st with ⟨c, ch⟩
  cases ch <;> simp [lovenseDongleWriteValue, lovenseDongleDisconnect]

/-- C2 amended witness: with the channel closed the write does fail with
`NotConnected`, at a concrete handle state. -/
theorem dongle_write_channel_closed_amended_witness :
    (lovenseDongleWriteValue ⟨true, false⟩ "dongle-toy-0"
        ⟨Endpoint.Tx, "Vibrate:5;", false⟩).1 =
      Except.error (ButtplugDeviceError.DeviceNotConnected "Port closed during writing") :=
  (dongle_write_channel_closed_amended ⟨true, false⟩ "dongle-toy-0"
    ⟨Endpoint.Tx, "Vibrate:5;", false⟩).1.mpr rfl

/-- C3. For every incoming relay message processed by the relay-toy
listener: a message whose function tag is not `ToyData` produces zero
`Notification` events, and a `ToyData` message carrying payload `s`
produces exactly one `Notification(address, Rx, s)` event with that
payload. -/
theorem dongle_relay_routing (addr : String) (msg : LovenseDongleIncomingMessage)
    (d : LovenseDongleIncomingMessageData) (s : String) :
    (msg.func ≠ LovenseDongleMessageFunc.ToyData →
      processDongleMessage addr msg = some []) ∧
    (msg.func = LovenseDongleMessageFunc.ToyData → msg.data = some d →
      d.data = some s →
      processDongleMessage addr msg =
        some [ButtplugDeviceEvent.Notification addr Endpoint.Rx s]) := by
  constructor
  · intro h
    simp [processDongleMessage, h]
  · intro h1 h2 h3
    simp [processDongleMessage, h1, h2, h3]

/-- C3 witness: a concrete status message yields no events; a concrete
`ToyData` message yields exactly its one notification. -/
theorem dongle_relay_routing_witness :
    processDongleMessage "a" ⟨LovenseDongleMessageFunc.StatusTag, none⟩ = some [] ∧
    processDongleMessage "a"
        ⟨LovenseDongleMessageFunc.ToyData, some ⟨some "0", some "Battery:90;"⟩⟩ =
      some [ButtplugDeviceEvent.Notification "a" Endpoint.Rx "Battery:90;"] :=
  ⟨(dongle_relay_routing "a" ⟨LovenseDongleMessageFunc.StatusTag, none⟩
      ⟨none, none⟩ "").1 (by decide),
   (dongle_relay_routing "a"
      ⟨LovenseDongleMessageFunc.ToyData, some ⟨some "0", some "Battery:90;"⟩⟩
      ⟨some "0", some "Battery:90;"⟩ "Battery:90;").2 rfl rfl rfl⟩

/-- C10. The listener unwraps both payload layers of a `ToyData` message:
for a `ToyData` message whose optional data field, or its inner data
string, is absent, processing panics (`unwrap` on `None`, modelled as
`none`) instead of discarding the message or reporting an error. -/
theorem dongle_toydata_missing_payload_panics (addr : String) (id : Option String) :
    processDongleMessage addr ⟨LovenseDongleMessageFunc.ToyData, none⟩ = none ∧
    processDongleMessage addr ⟨LovenseDongleMessageFunc.ToyData, some ⟨id, none⟩⟩ = none :=
  ⟨rfl, rfl⟩

/-- C1 amended witness: the all-present-equal delta `[some 5, some 5]`
(the spec's 2-motor example) produces exactly the one set-all command. -/
theorem lovense_vibrate_encoding_amended_witness :
    ([some 5, some 5] : List (Option Nat)) ≠ [] ∧
    handle_vibrate_cmd (some [some 5, some 5]) =
      some ["Vibrate:" ++ toString 5 ++ ";"] :=
  ⟨by decide,
    (lovense_vibrate_encoding_amended [some 5, some 5] 5 (by decide)).1 (by decide)⟩

/-- C6. For every relay-toy device whose incoming messages are all
processable (no panic), when the incoming stream closes the listener has
emitted exactly one `Removed` event for the toy's address, and `Removed`
is terminal: it is the last event, so no `Notification` or other event for
that address follows it. -/
theorem dongle_removed_terminal (addr : String)
    (msgs : List LovenseDongleIncomingMessage)
    (h : ∀ m ∈ msgs, toyDataWellFormed m = true)
    (evs : List ButtplugDeviceEvent)
    (hrun : runDongleListener addr msgs = some evs) :
    evs.count (ButtplugDeviceEvent.Removed addr) = 1 ∧
    evs.getLast? = some (ButtplugDeviceEvent.Removed addr) := by
  obtain ⟨pre, hrun2, hpre⟩ := runDongleListener_shape addr msgs h
  rw [hrun] at hrun2
  obtain rfl : evs = pre ++ [ButtplugDeviceEvent.Removed addr] :=
    Option.some.inj hrun2
  constructor
  · rw [List.count_append]
    have hzero : pre.count (ButtplugDeviceEvent.Removed addr) = 0 := by
      rw [List.count_eq_zero]
      intro hmem
      obtain ⟨s, hs⟩ := hpre _ hmem
      cases hs
    rw [hzero]
    simp
  · simp

/-- C6 witness: a concrete two-message stream (one toy-data message, one
status message) followed by stream closure yields one notification and the
terminal `Removed`. -/
theorem dongle_removed_terminal_witness :
    (∀ m ∈ [(⟨LovenseDongleMessageFunc.ToyData, some ⟨some "0", some "s"⟩⟩ :
        LovenseDongleIncomingMessage),
        ⟨LovenseDongleMessageFunc.StatusTag, none⟩], toyDataWellFormed m = true) ∧
    ([ButtplugDeviceEvent.Notification "a" Endpoint.Rx "s",
      ButtplugDeviceEvent.Removed "a"] : List ButtplugDeviceEvent).count
        (ButtplugDeviceEvent.Removed "a") = 1 ∧
    ([ButtplugDeviceEvent.Notification "a" Endpoint.Rx "s",
      ButtplugDeviceEvent.Removed "a"] : List ButtplugDeviceEvent).getLast? =
      some (ButtplugDeviceEvent.Removed "a") :=
  ⟨by decide,
    dongle_removed_terminal "a"
      [⟨LovenseDongleMessageFunc.ToyData, some ⟨some "0", some "s"⟩⟩,
        ⟨LovenseDongleMessageFunc.StatusTag, none⟩]
      (by decide)
      [ButtplugDeviceEvent.Notification "a" Endpoint.Rx "s",
        ButtplugDeviceEvent.Removed "a"]
      (by rfl)⟩

/-- After any rotate call, the manager's stored tuple equals the request
just handled. -/
lemma handle_rotate_stored (st : LovenseRotState) (req : Nat × Bool) :
    ((handle_rotate_cmd st req).2).stored = some req := by
  rcases req with ⟨s, c⟩
  unfold handle_rotate_cmd update_rotation
  by_cases h1 : st.stored = some (s, c)
  · simp [h1]
  · by_cases h2 : st.rotationDirection != c <;> simp [h1, h2]

/-- Sending the identical rotation tuple twice in a row emits no wire
commands on the second call. -/
lemma handle_rotate_same_twice (st : LovenseRotState) (req : Nat × Bool) :
    (handle_rotate_cmd (handle_rotate_cmd st req).2 req).1 = [] := by
  have h := handle_rotate_stored st req
  generalize (handle_rotate_cmd st req).2 = st2 at h ⊢
  rcases req with ⟨s, c⟩
  unfold handle_rotate_cmd update_rotation
  simp [h]

/-- C5. For every rotation delta reported as changed by
`Lovense::handle_rotate_cmd`, the speed command `Rotate:{speed};` is
written, followed by `RotateChange;` exactly when the new direction differs
from the stored direction flag — so a direction-only change still emits the
toggle; a repeated identical `(speed, clockwise)` tuple emits nothing on the
second call; and the spec's concrete scenario `(50, true)` then `(50,
false)` from the initial state emits the toggle on the second call. -/
theorem lovense_rotate_direction_toggle (st : LovenseRotState) (speed : Nat) (cw : Bool) :
    (handle_rotate_cmd st (speed, cw)).1 =
      (if st.stored = some (speed, cw) then []
       else if st.rotationDirection = cw then ["Rotate:" ++ toString speed ++ ";"]
       else ["Rotate:" ++ toString speed ++ ";", "RotateChange;"]) ∧
    (handle_rotate_cmd (handle_rotate_cmd st (speed, cw)).2 (speed, cw)).1 = [] ∧
    (handle_rotate_cmd (handle_rotate_cmd ⟨none, false⟩ (50, true)).2 (50, false)).1 =
      ["Rotate:50;", "RotateChange;"] := by
  refine ⟨?_, handle_rotate_same_twice st (speed, cw), by rfl⟩
  unfold handle_rotate_cmd update_rotation
  by_cases h1 : st.stored = some (speed, cw)
  · simp [h1]
  · by_cases h2 : st.rotationDirection = cw <;> simp [h1, h2]

/-- C7 counterexample. The claim states a read request on the relay-toy
handle and on the evdev handle fails with a `NotSupported` error. Both
`read_value` implementations are `unimplemented!()`: at a concrete read
request neither returns at all — each panics (`none`), so in particular no
`NotSupported` error value (`some (Except.error ...)`) is ever produced. -/
theorem read_value_unimplemented_counterexample :
    lovenseDongleReadValue ⟨Endpoint.Rx⟩ = none ∧
    evdevReadValue ⟨Endpoint.Rx⟩ = none :=
  ⟨rfl, rfl⟩

/-- C7 amended. For every read request on the relay-toy handle or on the
evdev handle, the read panics (`unimplemented!()`, modelled `none`) rather
than hanging or returning a `NotSupported` error. -/
theorem read_value_unimplemented_amended (c1 : DeviceReadCmd) (c2 : HardwareReadCmd) :
    lovenseDongleReadValue c1 = none ∧ evdevReadValue c2 = none :=
  ⟨rfl, rfl⟩

/-- C8. For every scalar command whose first entry is present with value
`v`, the evdev protocol handler produces exactly one hardware write on
endpoint `Tx` whose payload is the fixed-width 2-byte little-endian
encoding of `v` reduced modulo `2 ^ 16` (the `as i16` cast), with no
framing bytes; only the first actuator channel is encoded — the result does
not depend on any later entry. -/
theorem evdev_scalar_le_encoding (cmds : List (Option (ActuatorType × Nat)))
    (t : ActuatorType) (v : Nat) (h : cmds.head? = some (some (t, v))) :
    handle_scalar_cmd cmds =
      some (Except.ok [⟨Endpoint.Tx, leBytes2 (v % 2 ^ 16), false⟩]) := by
  rcases cmds with _ | ⟨hd, rest⟩
  · simp at h
  · rcases hd with _ | ⟨t0, v0⟩
    · simp at h
    · simp only [List.head?, Option.some.injEq, Prod.mk.injEq] at h
      obtain ⟨rfl, rfl⟩ := h
      simp [handle_scalar_cmd, vecWriteI16LE, leBytes2]
      omega

/-- C8 witness: value 70000 is truncated to 4464 = 70000 mod 2^16 and
encoded little-endian as the two bytes [112, 17]. -/
theorem evdev_scalar_le_encoding_witness :
    leBytes2 (70000 % 2 ^ 16) = [112, 17] ∧
    handle_scalar_cmd [some (ActuatorType.Vibrate, 70000)] =
      some (Except.ok [⟨Endpoint.Tx, [112, 17], false⟩]) := by
  refine ⟨by decide, ?_⟩
  have h := evdev_scalar_le_encoding [some (ActuatorType.Vibrate, 70000)]
    ActuatorType.Vibrate 70000 rfl
  rw [h]
  norm_num [leBytes2]

/-- C9. `Evdev::handle_scalar_cmd` is partial at the public interface: it
panics on the empty command slice (`cmds[0]` out of bounds) and on an
absent first entry (`.expect(":3")`), both modelled `none`; under the
precondition that the first entry is present it never returns the
`ProtocolSpecificError` branch (writing two bytes into an in-memory vector
cannot fail) and always returns `Ok` with exactly one command. -/
theorem evdev_scalar_partiality (rest cmds : List (Option (ActuatorType × Nat)))
    (t : ActuatorType) (v : Nat) :
    handle_scalar_cmd [] = none ∧
    handle_scalar_cmd (none :: rest) = none ∧
    (cmds.head? = some (some (t, v)) →
      ∃ c, handle_scalar_cmd cmds = some (Except.ok [c]) ∧
        ∀ e, handle_scalar_cmd cmds ≠ some (Except.error e)) := by
  refine ⟨rfl, rfl, ?_⟩
  intro h
  rcases cmds with _ | ⟨hd, rest2⟩
  · simp at h
  · rcases hd with _ | ⟨t0, v0⟩
    · simp at h
    · exact ⟨_, rfl, fun e he => by simp [handle_scalar_cmd, vecWriteI16LE] at he⟩

/-- C9 witness: the panics at concrete inputs, and the `Ok` single-command
result at a concrete present first entry. -/
theorem evdev_scalar_partiality_witness :
    handle_scalar_cmd [] = none ∧
    ∃ c, handle_scalar_cmd [some (ActuatorType.Vibrate, 3)] = some (Except.ok [c]) ∧
      ∀ e, handle_scalar_cmd [some (ActuatorType.Vibrate, 3)] ≠ some (Except.error e) :=
  ⟨(evdev_scalar_partiality [] [some (ActuatorType.Vibrate, 3)] ActuatorType.Vibrate 3).1,
   (evdev_scalar_partiality [] [some (ActuatorType.Vibrate, 3)] ActuatorType.Vibrate 3).2.2 rfl⟩

/-- C4 counterexample. The claim states a fatal enumeration error (the
`/dev/input` directory itself being unavailable) fails the whole scan with
an error, to be retried on the next timer tick. The code unwraps
`fs::read_dir("/dev/input/")` with `.expect("owo?")`, so a failed directory
read panics the scan task (modelled `none`) — no error value is ever
returned from the scan. -/
theorem evdev_scan_fatal_error_counterexample :
    evdevScan (Except.error ()) = none ∧
    (evdevScan (Except.error ())).isSome = false :=
  ⟨rfl, rfl⟩

/-- C4 amended. An enumeration error for an individual candidate (an
unreadable directory entry or a device that fails to open, i.e. any entry
`scanCandidate` skips) is skipped without affecting the other candidates:
deleting it from the listing leaves the scan's `DeviceFound` events and
result unchanged. A fatal enumeration error, however, panics the scan task
(`expect` on the `read_dir` result) instead of failing the scan with an
error. -/
theorem evdev_scan_resilience_amended (pre post : List DirEntryResult)
    (bad : DirEntryResult) (h : scanCandidate bad = none) :
    evdevScan (Except.ok (pre ++ bad :: post)) = evdevScan (Except.ok (pre ++ post)) ∧
    evdevScan (Except.error ()) = none := by
  refine ⟨?_, rfl⟩
  simp [evdevScan, List.filterMap_append, List.filterMap_cons, h]

/-- C4 amended witness: a scan over ten candidates, one of which is an
unreadable entry, equals the scan over the other nine and reports nine
`DeviceFound` events. -/
theorem evdev_scan_resilience_amended_witness :
    scanCandidate DirEntryResult.err = none ∧
    evdevScan (Except.ok
        ([DirEntryResult.entry "event0" (some ⟨some "Pad0", 0, true⟩),
          DirEntryResult.entry "event1" (some ⟨some "Pad1", 1, true⟩),
          DirEntryResult.entry "event2" (some ⟨some "Pad2", 2, true⟩),
          DirEntryResult.entry "event3" (some ⟨some "Pad3", 3, true⟩)] ++
          DirEntryResult.err ::
          [DirEntryResult.entry "event5" (some ⟨some "Pad5", 5, true⟩),
            DirEntryResult.entry "event6" (some ⟨some "Pad6", 6, true⟩),
            DirEntryResult.entry "event7" (some ⟨some "Pad7", 7, true⟩),
            DirEntryResult.entry "event8" (some ⟨some "Pad8", 8, true⟩),
            DirEntryResult.entry "event9" (some ⟨some "Pad9", 9, true⟩)])) =
      evdevScan (Except.ok
        ([DirEntryResult.entry "event0" (some ⟨some "Pad0", 0, true⟩),
          DirEntryResult.entry "event1" (some ⟨some "Pad1", 1, true⟩),
          DirEntryResult.entry "event2" (some ⟨some "Pad2", 2, true⟩),
          DirEntryResult.entry "event3" (some ⟨some "Pad3", 3, true⟩)] ++
          [DirEntryResult.entry "event5" (some ⟨some "Pad5", 5, true⟩),
            DirEntryResult.entry "event6" (some ⟨some "Pad6", 6, true⟩),
            DirEntryResult.entry "event7" (some ⟨some "Pad7", 7, true⟩),
            DirEntryResult.entry "event8" (some ⟨some "Pad8", 8, true⟩),
            DirEntryResult.entry "event9" (some ⟨some "Pad9", 9, true⟩)])) ∧
    (evdevScan (Except.ok
        ([DirEntryResult.entry "event0" (some ⟨some "Pad0", 0, true⟩),
          DirEntryResult.entry "event1" (some ⟨some "Pad1", 1, true⟩),
          DirEntryResult.entry "event2" (some ⟨some "Pad2", 2, true⟩),
          DirEntryResult.entry "event3" (some ⟨some "Pad3", 3, true⟩)] ++
          [DirEntryResult.entry "event5" (some ⟨some "Pad5", 5, true⟩),
            DirEntryResult.entry "event6" (some ⟨some "Pad6", 6, true⟩),
            DirEntryResult.entry "event7" (some ⟨some "Pad7", 7, true⟩),
            DirEntryResult.entry "event8" (some ⟨some "Pad8", 8, true⟩),
            DirEntryResult.entry "event9" (some ⟨some "Pad9", 9, true⟩)]))).map
      (fun p => p.1.length) = some 9 := by
  refine ⟨rfl, ?_, by decide⟩
  exact (evdev_scan_resilience_amended
    [DirEntryResult.entry "event0" (some ⟨some "Pad0", 0, true⟩),
      DirEntryResult.entry "event1" (some ⟨some "Pad1", 1, true⟩),
      DirEntryResult.entry "event2" (some ⟨some "Pad2", 2, true⟩),
      DirEntryResult.entry "event3" (some ⟨some "Pad3", 3, true⟩)]
    [DirEntryResult.entry "event5" (some ⟨some "Pad5", 5, true⟩),
      DirEntryResult.entry "event6" (some ⟨some "Pad6", 6, true⟩),
      DirEntryResult.entry "event7" (some ⟨some "Pad7", 7, true⟩),
      DirEntryResult.entry "event8" (some ⟨some "Pad8", 8, true⟩),
      DirEntryResult.entry "event9" (some ⟨some "Pad9", 9, true⟩)]
    DirEntryResult.err rfl).1
